import Mathlib

/-! Verification of the velruse authentication-result broker and
provider-dispatch layer (`velruse/app/__init__.py`) against its
natural-language specification.

The source module is shallowly embedded below: Python dicts become
association lists (`List (String × _)`, first match wins, matching
`dict.get` for unique-keyed dicts), the anykeystore Store becomes an
explicit key/value map with expiry timestamps and an explicit clock,
exceptions become `Except`/`Option`, and the side effects of the Pyramid
views (the single `storage.store` call and the response) become the
fields of an explicit result record.  Python string scanning is embedded
over `List Char` so that every definition evaluates inside the kernel. -/

set_option autoImplicit false
set_option maxRecDepth 40000

namespace Velruse

/-- Python `s.startswith(pre)`, embedded as a character-list scan. -/
def starts : List Char → List Char → Bool
  | [], _ => true
  | _ :: _, [] => false
  | c :: cs, d :: ds => if c = d then starts cs ds else false

/-- Number of positions of `s` at which the pattern `pat` occurs
(substring occurrences, counted at every position). -/
def occCount (pat : List Char) : List Char → Nat
  | [] => 0
  | c :: rest => (if starts pat (c :: rest) then 1 else 0) + occCount pat rest

/-- Python `settings.get(k)` on a dict, embedded as first-match lookup in
an association list (dict keys are unique, so first match is the match). -/
def sget (settings : List (String × String)) (k : String) : Option String :=
  match settings with
  | [] => none
  | (k2, v) :: rest => if k2 = k then some v else sget rest k

/-- The external Store collaborator: a key/value map carrying, for each
key, the stored value and its absolute expiry time.  Time is an explicit
`Nat` clock. -/
def Store (V : Type) : Type := String → Option (V × Nat)

/-- Modelled from the spec: the Store's `put(key, value, ttl)`
(`storage.store(token, data, expires=...)` in the source calls into the
external anykeystore backend, which is not under `src/`).  Writing a key
sets its value and its expiry to `now + ttl`. -/
def store_put {V : Type} (s : Store V) (token : String) (v : V)
    (ttl now : Nat) : Store V :=
  fun k => if k = token then some (v, now + ttl) else s k

/-- Modelled from the spec: the Store's `get(key) -> value | NotFound`
(`storage.retrieve(token)` in the source calls into the external
anykeystore backend, which is not under `src/`).  A key that is absent or
whose TTL window has elapsed yields `none` (NotFound); expiry is binary. -/
def store_retrieve {V : Type} (s : Store V) (token : String) (now : Nat) :
    Option V :=
  match s token with
  | some (v, exp) => if now < exp then some v else none
  | none => none

/-- Modelled from the spec: `generate_token` lives in
`velruse/app/utils.py`, which is not under `src/`.  The spec says it
produces an opaque, unguessable string; the entropy source is modelled as
an explicit seed, so distinct draws of randomness give distinct tokens. -/
def generate_token (seed : Nat) : String :=
  "token-" ++ toString seed

/-- Modelled from the spec: `redirect_form` lives in
`velruse/app/utils.py`, which is not under `src/`.  Per the spec (§4.3)
the rendered body is a self-submitting HTML form: a hidden field carrying
the token, the form action set to the configured endpoint, method POST,
with an automatic on-load trigger, and the token appearing nowhere
else (in particular in no URL). -/
def redirect_form (endpoint token : String) : String :=
  "<html><head></head><body onload=\"document.forms[0].submit();\">" ++
  "<form method=\"post\" action=\"" ++ endpoint ++ "\">" ++
  "<input type=\"hidden\" name=\"token\" value=\"" ++ token ++ "\" />" ++
  "</form></body></html>"

/-- Values stored in the payload dicts built by the views: strings and
string-to-string mappings (`context.profile` / `context.credentials`). -/
inductive PValue : Type where
  | str : String → PValue
  | map : List (String × String) → PValue
deriving DecidableEq

/-- A payload dict as built by the views. -/
abbrev PDict : Type := List (String × PValue)

/-- Lookup in a payload dict (Python `d[k]` / `d.get(k)`). -/
def pget (d : PDict) (k : String) : Option PValue :=
  match d with
  | [] => none
  | (k2, v) :: rest => if k2 = k then some v else pget rest k

/-- The `context` argument of `auth_complete_view`: an
`AuthenticationComplete` with provider identity, profile and
credentials. -/
structure CompleteContext : Type where
  provider_type : String
  provider_name : String
  profile : List (String × String)
  credentials : List (String × String)

/-- The `context` argument of `auth_denied_view`: an
`AuthenticationDenied` with provider identity and a denial reason. -/
structure DeniedContext : Type where
  provider_type : String
  provider_name : String
  reason : String

/-- What a relay view does: one `storage.store(token, payload, expires)`
call plus the HTML response body. -/
structure RelayResult : Type where
  token : String
  payload : PDict
  expires : Nat
  body : String

/-- Embedding of `auth_complete_view` (src/velruse/app/__init__.py lines
16-28).  `endpoint` is `request.registry.settings.get('endpoint')` and
`token` is the fresh `generate_token()` draw, both passed explicitly. -/
def auth_complete_view (endpoint token : String) (context : CompleteContext) :
    RelayResult :=
  let result_data : PDict :=
    [ ("provider_type", PValue.str context.provider_type),
      ("provider_name", PValue.str context.provider_name),
      ("profile", PValue.map context.profile),
      ("credentials", PValue.map context.credentials) ]
  { token := token,
    payload := result_data,
    expires := 300,
    body := redirect_form endpoint token }

/-- Embedding of `auth_denied_view` (src/velruse/app/__init__.py lines
31-42).  Note the stored dict's third key is `error`, holding
`context.reason`. -/
def auth_denied_view (endpoint token : String) (context : DeniedContext) :
    RelayResult :=
  let error_dict : PDict :=
    [ ("provider_type", PValue.str context.provider_type),
      ("provider_name", PValue.str context.provider_name),
      ("error", PValue.str context.reason) ]
  { token := token,
    payload := error_dict,
    expires := 300,
    body := redirect_form endpoint token }

/-- The literal format string logged by `auth_info_view` on a missing
token (src line 52); the `%s` placeholder is never interpolated (the
`log.info` call passes no argument), so the logged text is this constant,
independent of the token. -/
def invalid_token_log : String :=
  "auth_info requested invalid token \x22%s\x22"

/-- The response of `auth_info_view`: HTTP status, the payload handed to
the JSON renderer (`none` when the view returns `None`), and the log line
emitted, if any. -/
structure InfoResponse : Type where
  status : Nat
  payload : Option PDict
  logged : Option String
deriving DecidableEq

/-- Embedding of `auth_info_view` (src/velruse/app/__init__.py lines
45-54).  `token` is `request.GET.get('token')` (`none` when the request
parameter is absent; `storage.retrieve(None)` raises `KeyError` exactly
like a never-stored string does).  On `KeyError` the view logs, sets
status 400 and returns `None`; otherwise Pyramid serves the returned
payload with the default 200 status. -/
def auth_info_view (storage : Store PDict) (now : Nat)
    (token : Option String) : InfoResponse :=
  match token with
  | some t =>
    match store_retrieve storage t now with
    | some v => { status := 200, payload := some v, logged := none }
    | none =>
      { status := 400, payload := none, logged := some invalid_token_log }
  | none =>
    { status := 400, payload := none, logged := some invalid_token_log }

/-- Embedding of the static `settings_adapter` dict
(src/velruse/app/__init__.py lines 114-131). -/
def settings_adapter : List (String × String) :=
  [ ("bitbucket", "add_bitbucket_login_from_settings"),
    ("douban", "add_douban_login_from_settings"),
    ("facebook", "add_facebook_login_from_settings"),
    ("github", "add_github_login_from_settings"),
    ("google", "add_google_login_from_settings"),
    ("google_oauth2", "add_google_oauth2_login_from_settings"),
    ("lastfm", "add_lastfm_login_from_settings"),
    ("linkedin", "add_linkedin_login_from_settings"),
    ("live", "add_live_login_from_settings"),
    ("qq", "add_qq_login_from_settings"),
    ("renren", "add_renren_login_from_settings"),
    ("taobao", "add_taobao_login_from_settings"),
    ("twitter", "add_twitter_login_from_settings"),
    ("weibo", "add_weibo_login_from_settings"),
    ("openid", "add_openid_login_from_settings"),
    ("yahoo", "add_yahoo_login_from_settings") ]

/-- Python `k[9:].split('.', 1)[0]` (src line 138): drop the 9 characters
of `provider.` and keep the segment before the next dot (the whole
remainder when no dot follows). -/
def provider_name_of_key (k : String) : String :=
  String.mk ((k.data.drop 9).takeWhile (fun c => ¬ c = '.'))

/-- The loop body of `find_providers` (src lines 136-139): a key starting
with `provider.` contributes its name segment to the set. -/
def find_providers_step (providers : List String) (kv : String × String) :
    List String :=
  if starts "provider.".data kv.1.data then
    let name := provider_name_of_key kv.1
    if name ∈ providers then providers else providers ++ [name]
  else providers

/-- Embedding of `find_providers` (src/velruse/app/__init__.py lines
134-140).  The Python `set` is embedded as a duplicate-free list built in
scan order. -/
def find_providers (settings : List (String × String)) : List String :=
  settings.foldl find_providers_step []

/-- The `impl` resolution step of `load_provider` (src line 145):
`settings.get('provider.%s.impl' % provider) or provider` — Python `or`
falls back to `provider` when the setting is absent or falsy (empty). -/
def resolve_impl (settings : List (String × String)) (provider : String) :
    String :=
  match sget settings ("provider." ++ provider ++ ".impl") with
  | some s => if s = "" then provider else s
  | none => provider

/-- Embedding of `load_provider` (src/velruse/app/__init__.py lines
143-153).  Success yields the registration it performs: the name of the
settings-adapter method invoked together with the settings-namespace
string `provider.<name>.` passed to it; failure is the
`ConfigurationError` message, and performs no registration. -/
def load_provider (settings : List (String × String)) (provider : String) :
    Except String (String × String) :=
  let impl := resolve_impl settings provider
  match sget settings_adapter impl with
  | none =>
    Except.error
      ("could not find configuration method for provider " ++ provider)
  | some login_cfg =>
    Except.ok (login_cfg, "provider." ++ provider ++ ".")

/-- The required-setting check of `includeme` (src line 175):
`not settings.get('endpoint')` is true when the key is absent or its
value is falsy (the empty string). -/
def endpoint_missing (endpoint : Option String) : Bool :=
  match endpoint with
  | none => true
  | some s => s = ""

/-- Embedding of `includeme` (src/velruse/app/__init__.py lines
156-190).  The session/store setup and the static `velruse.providers.*`
includes are external Pyramid side effects with no bearing on the
embedded state, so they are elided; the configured providers are loaded
in turn (the first `ConfigurationError` aborts setup, as a raised
exception does), then the required `endpoint` setting is checked, and
only then are the three views registered.  The result is the list of
registered views, or the `ConfigurationError` message. -/
def includeme (settings : List (String × String)) :
    Except String (List String) :=
  match (find_providers settings).mapM (load_provider settings) with
  | Except.error e => Except.error e
  | Except.ok _ =>
    if endpoint_missing (sget settings "endpoint") then
      Except.error "missing required setting \x22endpoint\x22"
    else
      Except.ok ["auth_complete_view", "auth_denied_view", "auth_info_view"]

/-- Follows the claim wording of C4, not the source: a key is of the form
`provider.<name>.<rest>` when it extends the `provider.` namespace with a
`<name>` segment followed by a further dot and a remainder; `<name>` is
the dot-free segment right after the namespace dot.  Collected as a
duplicate-free list in scan order, like `find_providers`. -/
def claimed_provider_names (settings : List (String × String)) :
    List String :=
  settings.foldl
    (fun providers kv =>
      if starts "provider.".data kv.1.data &&
          (kv.1.data.drop 9).any (fun c => c = '.') then
        let name := provider_name_of_key kv.1
        if name ∈ providers then providers else providers ++ [name]
      else providers)
    []

/-- Follows the spec wording of §3 / C9, not the source: the documented
AuthError shape `\x7bprovider_type, provider_name, reason\x7d`. -/
def AuthErrorSpec (provider_type provider_name reason : String) : PDict :=
  [ ("provider_type", PValue.str provider_type),
    ("provider_name", PValue.str provider_name),
    ("reason", PValue.str reason) ]

end Velruse

namespace Velruse

/-- C1: for every payload P and TTL t > 0, storing P under a freshly
generated token and immediately retrieving by that token (same clock
instant) returns P unchanged. -/
theorem store_round_trip (s : Store PDict) (seed : Nat) (P : PDict)
    (t now : Nat) (h : 0 < t) :
    store_retrieve (store_put s (generate_token seed) P t now)
      (generate_token seed) now = some P := by
  have hlt : now < now + t := by omega
  simp [store_retrieve, store_put, hlt]

/-- Witness for C1: a concrete round trip through an initially empty
store with TTL 1. -/
theorem store_round_trip_witness :
    0 < 1 ∧
    store_retrieve (store_put (fun _ => none : Store PDict) (generate_token 0) [] 1 0)
      (generate_token 0) 0 = some [] :=
  ⟨by decide, store_round_trip (fun _ => none : Store PDict) 0 [] 1 0 (by decide)⟩

/-- C2: for every Auth-Info request, a token present and unexpired in
the Store yields the stored payload with status 200; an absent or
expired token (NotFound, including a missing request parameter) yields
status 400 with no payload, logging only the constant diagnostic line
`invalid_token_log`, which does not echo the token value. -/
theorem auth_info_contract (storage : Store PDict) (now : Nat) (t : String)
    (v : PDict) :
    (store_retrieve storage t now = some v →
      auth_info_view storage now (some t) =
        { status := 200, payload := some v, logged := none }) ∧
    (store_retrieve storage t now = none →
      auth_info_view storage now (some t) =
        { status := 400, payload := none,
          logged := some invalid_token_log }) ∧
    auth_info_view storage now none =
      { status := 400, payload := none, logged := some invalid_token_log } := by
  refine ⟨fun h => ?_, fun h => ?_, rfl⟩ <;> simp [auth_info_view, h]

/-- Witness for C2: a stored token is served with 200, a never-stored
token gets 400 with no payload. -/
theorem auth_info_contract_witness :
    store_retrieve (store_put (fun _ => none : Store PDict) "tok" [] 300 0) "tok" 0 =
      some [] ∧
    auth_info_view (store_put (fun _ => none : Store PDict) "tok" [] 300 0) 0 (some "tok") =
      { status := 200, payload := some [], logged := none } ∧
    store_retrieve (fun _ => none : Store PDict) "missing" 0 = none ∧
    auth_info_view (fun _ => none : Store PDict) 0 (some "missing") =
      { status := 400, payload := none, logged := some invalid_token_log } := by
  have h1 : store_retrieve (store_put (fun _ => none : Store PDict) "tok" [] 300 0) "tok" 0 =
      some [] := by decide
  have h2 : store_retrieve (fun _ => none : Store PDict) "missing" 0 = none := by decide
  exact ⟨h1, (auth_info_contract (store_put (fun _ => none : Store PDict) "tok" [] 300 0)
      0 "tok" []).1 h1, h2,
    (auth_info_contract (fun _ => none : Store PDict) 0 "missing" []).2.1 h2⟩

/-- C3: for every provider completion (success or denial) with token
`abc123` and endpoint `https://host.example/done`, the response body is
the redirect form, which contains exactly one hidden input carrying the
token as its value, exactly one action attribute equal to the endpoint,
exactly one occurrence of the token anywhere in the body (the hidden
input's value), and no occurrence of the token in the endpoint URL. -/
theorem relay_output_token_placement :
    (∀ c, (auth_complete_view "https://host.example/done" "abc123" c).body =
      redirect_form "https://host.example/done" "abc123") ∧
    (∀ c, (auth_denied_view "https://host.example/done" "abc123" c).body =
      redirect_form "https://host.example/done" "abc123") ∧
    occCount "<input type=\"hidden\" name=\"token\" value=\"abc123\" />".data
      (redirect_form "https://host.example/done" "abc123").data = 1 ∧
    occCount "action=\"https://host.example/done\"".data
      (redirect_form "https://host.example/done" "abc123").data = 1 ∧
    occCount "abc123".data
      (redirect_form "https://host.example/done" "abc123").data = 1 ∧
    occCount "abc123".data "https://host.example/done".data = 0 :=
  ⟨fun _ => rfl, fun _ => rfl, by decide, by decide, by decide, by decide⟩

/-- C5: for every provider name whose resolved implementation identifier
is absent from the static `settings_adapter` registry, `load_provider`
fails with the `ConfigurationError` message and performs no registration;
when the identifier is present, it succeeds and invokes the registered
adapter method with settings namespace `provider.<name>.`. -/
theorem load_provider_dispatch (settings : List (String × String))
    (provider : String) :
    (sget settings_adapter (resolve_impl settings provider) = none →
      load_provider settings provider =
        Except.error
          ("could not find configuration method for provider " ++
            provider)) ∧
    (∀ cfg, sget settings_adapter (resolve_impl settings provider) = some cfg →
      load_provider settings provider =
        Except.ok (cfg, "provider." ++ provider ++ ".")) := by
  constructor
  · intro h; simp [load_provider, h]
  · intro cfg h; simp [load_provider, h]

/-- Witness for C5: an unknown `bogus` provider fails; `tw` with
`impl = twitter` dispatches to the twitter adapter with namespace
`provider.tw.`. -/
theorem load_provider_dispatch_witness :
    sget settings_adapter (resolve_impl [] "bogus") = none ∧
    load_provider [] "bogus" =
      Except.error "could not find configuration method for provider bogus" ∧
    sget settings_adapter
      (resolve_impl [("provider.tw.impl", "twitter")] "tw") =
      some "add_twitter_login_from_settings" ∧
    load_provider [("provider.tw.impl", "twitter")] "tw" =
      Except.ok ("add_twitter_login_from_settings", "provider.tw.") := by
  have h1 : sget settings_adapter (resolve_impl [] "bogus") = none := by decide
  have h2 : sget settings_adapter
      (resolve_impl [("provider.tw.impl", "twitter")] "tw") =
      some "add_twitter_login_from_settings" := by decide
  exact ⟨h1, (load_provider_dispatch [] "bogus").1 h1, h2,
    (load_provider_dispatch [("provider.tw.impl", "twitter")] "tw").2 _ h2⟩

/-- C6: with no `endpoint` setting, application setup (`includeme`)
raises `ConfigurationError`; the error branch carries no registered
views, so no view can ever be invoked. -/
theorem includeme_missing_endpoint (settings : List (String × String))
    (h : sget settings "endpoint" = none) :
    ∃ e, includeme settings = Except.error e := by
  rcases hm : (find_providers settings).mapM (load_provider settings)
    with e | l
  · exact ⟨e, by unfold includeme; rw [hm]⟩
  · refine ⟨"missing required setting \x22endpoint\x22", ?_⟩
    unfold includeme
    rw [hm, h]
    rfl

/-- Witness for C6: the empty configuration is rejected. -/
theorem includeme_missing_endpoint_witness :
    sget ([] : List (String × String)) "endpoint" = none ∧
    ∃ e, includeme [] = Except.error e :=
  ⟨rfl, includeme_missing_endpoint [] rfl⟩

/-- C10: an `endpoint` setting present but equal to the empty string is
treated exactly like an absent one: the `not settings.get('endpoint')`
check is on falsiness (`endpoint_missing` agrees on `some ""` and
`none`), so setup raises `ConfigurationError`. -/
theorem includeme_empty_endpoint (settings : List (String × String))
    (h : sget settings "endpoint" = some "") :
    endpoint_missing (sget settings "endpoint") = endpoint_missing none ∧
    ∃ e, includeme settings = Except.error e := by
  refine ⟨by rw [h]; rfl, ?_⟩
  rcases hm : (find_providers settings).mapM (load_provider settings)
    with e | l
  · exact ⟨e, by unfold includeme; rw [hm]⟩
  · refine ⟨"missing required setting \x22endpoint\x22", ?_⟩
    unfold includeme
    rw [hm, h]
    rfl

/-- Witness for C10: the configuration with only `endpoint = ""` is
rejected. -/
theorem includeme_empty_endpoint_witness :
    sget [("endpoint", "")] "endpoint" = some "" ∧
    endpoint_missing (sget [("endpoint", "")] "endpoint") =
      endpoint_missing none ∧
    ∃ e, includeme [("endpoint", "")] = Except.error e := by
  have h : sget [("endpoint", "")] "endpoint" = some "" := by decide
  have main := includeme_empty_endpoint [("endpoint", "")] h
  exact ⟨h, main.1, main.2⟩

/-- C7: every handoff, on the success path and on the denial path alike,
stores its payload with a TTL of exactly 300 seconds, the same
per-call-non-configurable constant for every call. -/
theorem relay_ttl_fixed_300 (endpoint token : String) (c : CompleteContext)
    (d : DeniedContext) :
    (auth_complete_view endpoint token c).expires = 300 ∧
    (auth_denied_view endpoint token d).expires = 300 :=
  ⟨rfl, rfl⟩

/-- Counterexample for C9: at a concrete denial, the stored payload is
not the spec's AuthError shape — it has no `reason` key; the denial
reason is stored under the key `error` instead. -/
theorem auth_denied_payload_key_counterexample :
    (auth_denied_view "https://host.example/done" "tok1"
        { provider_type := "oauth2", provider_name := "facebook",
          reason := "user_denied" }).payload ≠
      AuthErrorSpec "oauth2" "facebook" "user_denied" ∧
    pget (auth_denied_view "https://host.example/done" "tok1"
        { provider_type := "oauth2", provider_name := "facebook",
          reason := "user_denied" }).payload "reason" = none ∧
    pget (auth_denied_view "https://host.example/done" "tok1"
        { provider_type := "oauth2", provider_name := "facebook",
          reason := "user_denied" }).payload "error" =
      some (PValue.str "user_denied") :=
  ⟨by decide, by decide, by decide⟩

/-- C9 (amended): on every provider denial, the stored payload is a
three-key dict `\x7bprovider_type, provider_name, error\x7d` whose `error`
entry is the provider's denial reason string; there is no `reason` key. -/
theorem auth_denied_payload_shape (endpoint token : String)
    (c : DeniedContext) :
    pget (auth_denied_view endpoint token c).payload "provider_type" =
      some (PValue.str c.provider_type) ∧
    pget (auth_denied_view endpoint token c).payload "provider_name" =
      some (PValue.str c.provider_name) ∧
    pget (auth_denied_view endpoint token c).payload "error" =
      some (PValue.str c.reason) ∧
    pget (auth_denied_view endpoint token c).payload "reason" = none ∧
    (auth_denied_view endpoint token c).payload.length = 3 :=
  ⟨rfl, rfl, rfl, rfl, rfl⟩

/-- C8: when `provider.<name>.impl` is unspecified, `load_provider`
resolves the implementation identifier to the provider name itself, so a
bare registered name configures itself (and distinct names may share one
implementation, since resolution only reads each name's own namespace). -/
theorem impl_defaults_to_provider_name (settings : List (String × String))
    (provider : String)
    (h : sget settings ("provider." ++ provider ++ ".impl") = none) :
    resolve_impl settings provider = provider ∧
    ∀ cfg, sget settings_adapter provider = some cfg →
      load_provider settings provider =
        Except.ok (cfg, "provider." ++ provider ++ ".") := by
  have hr : resolve_impl settings provider = provider := by
    simp [resolve_impl, h]
  exact ⟨hr, fun cfg hc => by simp [load_provider, hr, hc]⟩

/-- Witness for C8: `provider.facebook.key` alone enables `facebook`,
which resolves to itself and dispatches to the facebook adapter. -/
theorem impl_defaults_witness :
    sget [("provider.facebook.key", "x")]
      ("provider." ++ "facebook" ++ ".impl") = none ∧
    resolve_impl [("provider.facebook.key", "x")] "facebook" = "facebook" ∧
    load_provider [("provider.facebook.key", "x")] "facebook" =
      Except.ok ("add_facebook_login_from_settings",
        "provider." ++ "facebook" ++ ".") := by
  have h : sget [("provider.facebook.key", "x")]
      ("provider." ++ "facebook" ++ ".impl") = none := by decide
  have main :=
    impl_defaults_to_provider_name [("provider.facebook.key", "x")]
      "facebook" h
  exact ⟨h, main.1, main.2 _ (by decide)⟩

/-- One step of the `find_providers` fold adds exactly the name segment
of a `provider.`-namespaced key. -/
theorem mem_find_providers_step (acc : List String) (kv : String × String)
    (x : String) :
    x ∈ find_providers_step acc kv ↔
      x ∈ acc ∨ (starts "provider.".data kv.1.data = true ∧
        x = provider_name_of_key kv.1) := by
  unfold find_providers_step
  by_cases hp : starts "provider.".data kv.1.data = true
  · simp only [hp, if_true]
    by_cases hm : provider_name_of_key kv.1 ∈ acc
    · simp only [hm, if_true]
      constructor
      · exact fun h => Or.inl h
      · rintro (h | ⟨-, rfl⟩)
        · exact h
        · exact hm
    · simp [hm, hp, List.mem_append]
  · simp [hp]

/-- Membership in the `find_providers` fold, generalized over the
accumulator. -/
theorem mem_fp_aux (l : List (String × String)) :
    ∀ (acc : List String) (x : String),
      x ∈ l.foldl find_providers_step acc ↔
        x ∈ acc ∨ ∃ kv, kv ∈ l ∧ starts "provider.".data kv.1.data = true ∧
          x = provider_name_of_key kv.1 := by
  induction l with
  | nil => intro acc x; simp
  | cons hd tl ih =>
    intro acc x
    rw [List.foldl_cons, ih, mem_find_providers_step]
    constructor
    · rintro ((h | h) | ⟨kv, hkv, h1, h2⟩)
      · exact Or.inl h
      · exact Or.inr ⟨hd, List.mem_cons_self hd tl, h.1, h.2⟩
      · exact Or.inr ⟨kv, List.mem_cons_of_mem hd hkv, h1, h2⟩
    · rintro (h | ⟨kv, hkv, h1, h2⟩)
      · exact Or.inl (Or.inl h)
      · rcases List.mem_cons.mp hkv with rfl | hkv2
        · exact Or.inl (Or.inr ⟨h1, h2⟩)
        · exact Or.inr ⟨kv, hkv2, h1, h2⟩

/-- The `find_providers` fold preserves duplicate-freedom of the
accumulator. -/
theorem nodup_fp_aux (l : List (String × String)) :
    ∀ acc : List String, acc.Nodup →
      (l.foldl find_providers_step acc).Nodup := by
  induction l with
  | nil => intro acc h; simpa using h
  | cons hd tl ih =>
    intro acc h
    rw [List.foldl_cons]
    apply ih
    unfold find_providers_step
    by_cases hp : starts "provider.".data hd.1.data = true
    · simp only [hp, if_true]
      by_cases hm : provider_name_of_key hd.1 ∈ acc
      · simpa [hm] using h
      · simp [hm, List.nodup_append, h]
    · simpa [hp] using h

/-- C4 (amended): `find_providers` returns exactly the distinct name
segments (the part before the next dot, or the whole remainder when no
dot follows) of the keys starting with `provider.`, and nothing else; in
particular the spec's example yields exactly
`\x7bfacebook, tw\x7d`. -/
theorem find_providers_characterization :
    (∀ (settings : List (String × String)) (x : String),
      x ∈ find_providers settings ↔
        ∃ kv, kv ∈ settings ∧ starts "provider.".data kv.1.data = true ∧
          x = provider_name_of_key kv.1) ∧
    (∀ settings : List (String × String), (find_providers settings).Nodup) ∧
    find_providers
      [("provider.facebook.key", "x"), ("provider.tw.impl", "twitter"),
       ("other.setting", "y")] = ["facebook", "tw"] := by
  refine ⟨fun settings x => ?_, fun settings => ?_, by decide⟩
  · rw [find_providers, mem_fp_aux]
    simp
  · exact nodup_fp_aux settings [] List.nodup_nil

/-- Counterexample for C4: the settings dict with the single key
`provider.x` has no key of the form `provider.<name>.<rest>` (no further
dot after the namespace), yet `find_providers` returns `x` — so the set
returned is not exactly the names of `provider.<name>.<rest>` keys. -/
theorem find_providers_rest_counterexample :
    find_providers [("provider.x", "v")] = ["x"] ∧
    claimed_provider_names [("provider.x", "v")] = [] :=
  ⟨by decide, by decide⟩

end Velruse
